import Mathlib

/-!
# Verification of the Nessie charm reconciler (src/charm.py)

Shallow embedding of the charm logic in Lean 4.

The Python source is event-handler glue: it derives database connection
parameters from relation data, builds a Pebble layer (process descriptor)
whose service carries a fixed environment-variable contract, and reconciles
that layer against the current plan of the container, restarting the
service on change.  Python dictionaries are modelled as association lists,
Python exceptions as an explicit error type threaded through Except, and
the mutable charm/unit/container state as an explicit record passed
through each handler.
-/

deriving instance DecidableEq for Except

namespace Nessie

/-- A relation data bag: a Python dict of string keys to string values,
modelled as an association list.  An empty list models an empty (falsy)
dict, which the relation scan skips. -/
abbrev Bag := List (String × String)

/-- The values of the mapping returned by the relation-data fetch of the
database object, in iteration order (relations.values() in the source). -/
abbrev RelationSnapshot := List Bag

/-- Dictionary lookup: the first binding of the key wins. -/
def assocLookup {β : Type} (k : String) : List (String × β) → Option β
  | [] => none
  | (k₂, v) :: rest => if k = k₂ then some v else assocLookup k rest

/-- Splitting a character list on every occurrence of a separator
character, mirroring the behaviour of the Python str.split method for a
one-character separator: the empty input yields one empty field, and each
separator occurrence starts a new field. -/
def splitOnCharList (c : Char) : List Char → List (List Char)
  | [] => [[]]
  | x :: xs =>
    if x = c then [] :: splitOnCharList c xs
    else
      match splitOnCharList c xs with
      | [] => [[x]]
      | y :: ys => (x :: y) :: ys

/-- Model of the Python expression s.split(c) for a one-character
separator c. -/
def pySplit (c : Char) (s : String) : List String :=
  (splitOnCharList c s.data).map (fun l => { data := l })

/-- The exceptions that can be raised inside the relation-data and
layer-building code path:
* databaseNotReady models the DatabaseNotReady exception raised when
  every relation bag is empty;
* keyError models a Python KeyError on a missing dict key;
* unpackError n models the ValueError raised by the tuple unpacking
  in the source line splitting the endpoints value, when the split
  yields n parts with n different from 2. -/
inductive FetchError
  | databaseNotReady
  | keyError (k : String)
  | unpackError (n : Nat)
deriving DecidableEq, Repr

/-- The dictionary returned by fetch_postgres_relation_data. -/
structure DbData where
  db_host : String
  db_port : String
  db_username : String
  db_password : String
  db_database : String
deriving DecidableEq, Repr

/-- Model of NessieCharm.fetch_postgres_relation_data: scan the relation
bags in iteration order, skip empty bags, and on the first non-empty bag
unpack the colon-split of the endpoints value into host and port and
return the populated dictionary, with the statically configured database
name.  If all bags are empty, raise DatabaseNotReady (modelled as the
databaseNotReady error). -/
def fetch_postgres_relation_data : RelationSnapshot → Except FetchError DbData
  | [] => .error .databaseNotReady
  | bag :: rest =>
    if bag = [] then fetch_postgres_relation_data rest
    else
      match assocLookup "endpoints" bag with
      | none => .error (.keyError "endpoints")
      | some e =>
        match pySplit ':' e with
        | [host, port] =>
          match assocLookup "username" bag with
          | none => .error (.keyError "username")
          | some u =>
            match assocLookup "password" bag with
            | none => .error (.keyError "password")
            | some w =>
              .ok { db_host := host, db_port := port, db_username := u,
                    db_password := w, db_database := "names_db" }
        | parts => .error (.unpackError parts.length)

/-- Model of NessieCharm.app_environment: the environment-variable
dictionary for the workload, built from the fetched relation data.  An
exception raised by fetch_postgres_relation_data propagates, since the
property has no exception handler. -/
def app_environment (snap : RelationSnapshot) :
    Except FetchError (List (String × String)) := do
  let d ← fetch_postgres_relation_data snap
  return [
    ("NESSIE_VERSION_STORE_TYPE", "JDBC"),
    ("QUARKUS_DATASOURCE_JDBC_URL",
      "jdbc:postgresql://" ++ d.db_host ++ ":" ++ d.db_port ++ "/" ++ d.db_database),
    ("DEMO_SERVER_DB_HOST", d.db_host),
    ("DEMO_SERVER_DB_PORT", d.db_port),
    ("QUARKUS_DATASOURCE_USERNAME", d.db_username),
    ("QUARKUS_DATASOURCE_PASSWORD", d.db_password)
  ]

/-- One service entry of a Pebble layer. -/
structure ServiceConfig where
  override : String
  summary : String
  command : String
  startup : String
  environment : List (String × String)
deriving DecidableEq, Repr

/-- A Pebble layer dictionary (ops.pebble.LayerDict). -/
structure LayerDict where
  summary : String
  description : String
  services : List (String × ServiceConfig)
deriving DecidableEq, Repr

/-- The service name set on the charm instance in its constructor. -/
def pebble_service_name : String := "nessie-service"

/-- Model of the NessieCharm._pebble_layer property: the desired Pebble
layer.  Evaluating it evaluates app_environment, so an exception raised
there propagates to the caller. -/
def pebble_layer (snap : RelationSnapshot) : Except FetchError LayerDict := do
  let env ← app_environment snap
  return {
    summary := "nessie layer",
    description := "pebble config layer for nessie",
    services := [
      (pebble_service_name,
        { override := "replace", summary := "nessie", command := "printenv",
          startup := "enabled", environment := env })
    ]
  }

/-- The unit status values used by the charm (ops.model statuses). -/
inductive Status
  | active
  | waiting (msg : String)
  | blocked (msg : String)
  | maintenance (msg : String)
deriving DecidableEq, Repr

/-- The observable state a handler invocation reads and writes: whether
the Pebble supervisor of the workload container is reachable (the
can_connect check), the services sub-mapping of the current Pebble plan
(what get_plan().to_dict().get of the services key returns), the unit
status, the reported workload version, the opened ports, and two event
counters recording how many times a layer was installed via add_layer and
how many service restarts were requested. -/
structure CharmState where
  canConnect : Bool
  planServices : List (String × ServiceConfig)
  status : Status
  workloadVersion : String
  openedPorts : List Int
  installCount : Nat
  restartCount : Nat
deriving DecidableEq, Repr

/-- Model of the NessieCharm.version property: the constant "1.0" (what
_request_version returns) when the container is reachable and the service
is known to the supervisor, the empty string otherwise. -/
def charm_version (canConnect : Bool)
    (planServices : List (String × ServiceConfig)) : String :=
  if canConnect ∧ (assocLookup pebble_service_name planServices).isSome
  then "1.0" else ""

/-- Model of NessieCharm._update_layer_and_restart: set maintenance
status; if the container is reachable, build the desired layer (a
DatabaseNotReady raised while building it is caught and turns into
waiting status; any other exception propagates), compare the services
sub-mapping of the plan against the services of the new layer, and if
they differ install the new layer and restart the service; finally update
the reported workload version and set active status.  If the container is
unreachable, set waiting status and do nothing else. -/
def update_layer_and_restart (snap : RelationSnapshot) (s : CharmState) :
    Except FetchError CharmState :=
  let s₁ := { s with status := Status.maintenance "Assembling pod spec" }
  if s₁.canConnect then
    match pebble_layer snap with
    | .error .databaseNotReady =>
      .ok { s₁ with status := Status.waiting "Waiting for database relation" }
    | .error e => .error e
    | .ok newLayer =>
      let s₂ :=
        if s₁.planServices ≠ newLayer.services then
          { s₁ with planServices := newLayer.services,
                    installCount := s₁.installCount + 1,
                    restartCount := s₁.restartCount + 1 }
        else s₁
      let s₃ := { s₂ with
        workloadVersion := charm_version s₂.canConnect s₂.planServices }
      .ok { s₃ with status := Status.active }
  else
    .ok { s₁ with status := Status.waiting "Waiting for Pebble in workload container" }

/-- Model of NessieCharm._on_nessie_pebble_ready: add the layer built by
the _pebble_layer property to the container and set active status.  There
is no exception handler here, so an exception raised while building the
layer escapes the handler (modelled as an error result). -/
def on_nessie_pebble_ready (snap : RelationSnapshot) (s : CharmState) :
    Except FetchError CharmState := do
  let layer ← pebble_layer snap
  return { s with planServices := layer.services,
                  installCount := s.installCount + 1,
                  status := Status.active }

/-- Model of NessieCharm._on_database_created, also bound to the
endpoints-changed event: delegates to _update_layer_and_restart. -/
def on_database_created (snap : RelationSnapshot) (s : CharmState) :
    Except FetchError CharmState :=
  update_layer_and_restart snap s

/-- Model of NessieCharm._on_database_relation_removed: set waiting
status, nothing else. -/
def on_database_relation_removed (s : CharmState) : CharmState :=
  { s with status := Status.waiting "Waiting for database relation" }

/-- The VALID_LOG_LEVELS constant from the source, defined at module
level and never used by any handler. -/
def VALID_LOG_LEVELS : List String :=
  ["info", "debug", "warning", "error", "critical"]

/-- The charm configuration surface: the webui-port value and the
log-level-like option, each possibly absent.  Values arrive as strings. -/
structure Config where
  webuiPort : Option String
  logLevel : Option String
deriving DecidableEq, Repr

/-- Accumulator for the decimal digits of a numeral. -/
def decDigitsAux : List Char → Nat → Option Nat
  | [], acc => some acc
  | c :: rest, acc =>
    if '0' ≤ c ∧ c ≤ '9' then decDigitsAux rest (acc * 10 + (c.toNat - 48))
    else none

/-- Model of the Python int conversion applied to a decimal string: an
optional minus sign followed by at least one digit.  The whitespace,
plus-sign and underscore tolerance of the Python parser is not modelled;
no claim depends on it. -/
def pyInt? (s : String) : Option Int :=
  match s.data with
  | [] => none
  | '-' :: rest =>
    if rest = [] then none
    else (decDigitsAux rest 0).map (fun n => -(n : Int))
  | l => (decDigitsAux l 0).map (fun n => (n : Int))

/-- Errors escaping the configuration handlers: a KeyError on a missing
config key or a ValueError from the int conversion. -/
inductive ConfigError
  | keyError (k : String)
  | valueError (v : String)
deriving DecidableEq, Repr

/-- Model of NessieCharm._handle_ports: convert the webui-port config
value to an integer and open exactly that port on the unit. -/
def handle_ports (cfg : Config) (s : CharmState) :
    Except ConfigError CharmState :=
  match cfg.webuiPort with
  | none => .error (.keyError "webui-port")
  | some v =>
    match pyInt? v with
    | none => .error (.valueError v)
    | some p => .ok { s with openedPorts := [p] }

/-- Model of NessieCharm._on_config_changed: calls _handle_ports and
nothing else.  In particular it never reads the log-level option and
never sets any status. -/
def on_config_changed (cfg : Config) (s : CharmState) :
    Except ConfigError CharmState :=
  handle_ports cfg s

/-! ## Observers used to state closed properties without binders -/

/-- The database name recorded by a successful relation-data fetch, if
the fetch succeeds. -/
def fetchedDbName (snap : RelationSnapshot) : Option String :=
  match fetch_postgres_relation_data snap with
  | .ok d => some d.db_database
  | .error _ => none

/-- The install counter of a successful handler result. -/
def okInstallCount {ε : Type} : Except ε CharmState → Option Nat
  | .ok r => some r.installCount
  | .error _ => none

/-- The restart counter of a successful handler result. -/
def okRestartCount {ε : Type} : Except ε CharmState → Option Nat
  | .ok r => some r.restartCount
  | .error _ => none

/-- The unit status of a successful handler result. -/
def okStatus {ε : Type} : Except ε CharmState → Option Status
  | .ok r => some r.status
  | .error _ => none

/-- Whether an observed status is a blocked status. -/
def isBlocked : Option Status → Bool
  | some (Status.blocked _) => true
  | _ => false

/-! ## Concrete example inputs used by witnesses and counterexamples -/

/-- The relation bag from the scenario in the specification. -/
def demoBag : Bag :=
  [("endpoints", "10.0.0.5:5432"), ("username", "u"), ("password", "p")]

/-- A snapshot holding just the scenario bag. -/
def demoSnap : RelationSnapshot := [demoBag]

/-- The environment the scenario bag produces. -/
def demoEnv : List (String × String) :=
  [("NESSIE_VERSION_STORE_TYPE", "JDBC"),
   ("QUARKUS_DATASOURCE_JDBC_URL", "jdbc:postgresql://10.0.0.5:5432/names_db"),
   ("DEMO_SERVER_DB_HOST", "10.0.0.5"),
   ("DEMO_SERVER_DB_PORT", "5432"),
   ("QUARKUS_DATASOURCE_USERNAME", "u"),
   ("QUARKUS_DATASOURCE_PASSWORD", "p")]

/-- The layer the scenario bag produces. -/
def demoLayer : LayerDict :=
  { summary := "nessie layer",
    description := "pebble config layer for nessie",
    services := [
      (pebble_service_name,
        { override := "replace", summary := "nessie", command := "printenv",
          startup := "enabled", environment := demoEnv })] }

/-- A reachable container with an empty plan. -/
def demoState : CharmState :=
  { canConnect := true, planServices := [],
    status := Status.waiting "Waiting for database relation",
    workloadVersion := "", openedPorts := [],
    installCount := 0, restartCount := 0 }

/-- The state after reconciling demoSnap from demoState. -/
def demoState1 : CharmState :=
  { canConnect := true, planServices := demoLayer.services,
    status := Status.active, workloadVersion := "1.0", openedPorts := [],
    installCount := 1, restartCount := 1 }

/-- A bag whose endpoints value is a bare colon: it splits into an empty
host and an empty port, and its credentials are empty strings. -/
def badBag : Bag := [("endpoints", ":"), ("username", ""), ("password", "")]

/-- A snapshot holding just the bare-colon bag. -/
def badSnap : RelationSnapshot := [badBag]

/-- A bag whose endpoints value contains no colon at all. -/
def noColonBag : Bag :=
  [("endpoints", "localhost"), ("username", "u"), ("password", "p")]

/-- A state whose container is unreachable. -/
def offState : CharmState := { demoState with canConnect := false }

/-- A configuration carrying a log level outside the enumerated set. -/
def traceCfg : Config := { webuiPort := some "8080", logLevel := some "trace" }

/-- The state after the configuration handler opened port 8080. -/
def demoStatePorts : CharmState := { demoState with openedPorts := [8080] }

/-! ## Helper lemmas -/

/-- The split of a character list is never the empty list of fields. -/
theorem splitOnCharList_ne_nil (c : Char) (l : List Char) :
    splitOnCharList c l ≠ [] := by
  induction l with
  | nil => simp [splitOnCharList]
  | cons x xs ih =>
    rw [splitOnCharList]
    split
    · simp
    · rcases h : splitOnCharList c xs with _ | ⟨y, ys⟩
      · exact absurd h ih
      · simp [h]

/-- The split has one more field than the number of separator
occurrences. -/
theorem splitOnCharList_length (c : Char) (l : List Char) :
    (splitOnCharList c l).length = l.count c + 1 := by
  induction l with
  | nil => simp [splitOnCharList]
  | cons x xs ih =>
    by_cases hx : x = c
    · subst hx
      simp [splitOnCharList, List.count_cons, ih]
    · rcases h : splitOnCharList c xs with _ | ⟨y, ys⟩
      · exact absurd h (splitOnCharList_ne_nil c xs)
      · rw [h] at ih
        simp only [List.length_cons] at ih
        simp [splitOnCharList, hx, h, List.count_cons, ih]

/-- A one-field split returns the input unchanged. -/
theorem splitOnCharList_eq_single (c : Char) (l y : List Char)
    (h : splitOnCharList c l = [y]) : l = y := by
  induction l generalizing y with
  | nil =>
    simp [splitOnCharList] at h
    exact h.symm
  | cons x xs ih =>
    rw [splitOnCharList] at h
    by_cases hx : x = c
    · rw [if_pos hx] at h
      simp only [List.cons.injEq] at h
      exact absurd h.2 (splitOnCharList_ne_nil c xs)
    · rw [if_neg hx] at h
      rcases hs : splitOnCharList c xs with _ | ⟨z, zs⟩
      · exact absurd hs (splitOnCharList_ne_nil c xs)
      · rw [hs] at h
        simp only [List.cons.injEq] at h
        obtain ⟨hy, hzs⟩ := h
        have hxs : xs = z := ih z (by rw [hs, hzs])
        rw [← hy, hxs]

/-- A two-field split decomposes the input around one separator. -/
theorem splitOnCharList_eq_pair (c : Char) (l a b : List Char)
    (h : splitOnCharList c l = [a, b]) : l = a ++ c :: b := by
  induction l generalizing a with
  | nil => simp [splitOnCharList] at h
  | cons x xs ih =>
    rw [splitOnCharList] at h
    by_cases hx : x = c
    · rw [if_pos hx] at h
      simp only [List.cons.injEq] at h
      obtain ⟨ha, hb⟩ := h
      have hxs : xs = b := splitOnCharList_eq_single c xs b hb
      rw [← ha, hxs, hx]
      rfl
    · rw [if_neg hx] at h
      rcases hs : splitOnCharList c xs with _ | ⟨z, zs⟩
      · exact absurd hs (splitOnCharList_ne_nil c xs)
      · rw [hs] at h
        simp only [List.cons.injEq] at h
        obtain ⟨ha, hzs⟩ := h
        have hxs : xs = z ++ c :: b := ih z (by rw [hs, hzs])
        rw [← ha, hxs]
        rfl

/-- A two-field string split decomposes the string around one colon. -/
theorem pySplit_eq_pair (c : Char) (s h p : String)
    (hs : pySplit c s = [h, p]) : s.data = h.data ++ c :: p.data := by
  unfold pySplit at hs
  rcases hl : splitOnCharList c s.data with _ | ⟨a, _ | ⟨b, t⟩⟩
  · rw [hl] at hs; simp at hs
  · rw [hl] at hs; simp at hs
  · rw [hl] at hs
    simp only [List.map_cons, List.cons.injEq] at hs
    obtain ⟨ha, hb, ht⟩ := hs
    have ht0 : t = [] := by
      cases t with
      | nil => rfl
      | cons u us => simp at ht
    have hd := splitOnCharList_eq_pair c s.data a b (by rw [hl, ht0])
    rw [hd, ← ha, ← hb]

/-- The number of fields of a string split is the separator count plus
one. -/
theorem pySplit_length (c : Char) (s : String) :
    (pySplit c s).length = s.data.count c + 1 := by
  unfold pySplit
  rw [List.length_map]
  exact splitOnCharList_length c s.data

/-- The relation scan ignores a leading block of empty bags. -/
theorem fetch_skip_empty (pre rest : RelationSnapshot)
    (h : ∀ b ∈ pre, b = []) :
    fetch_postgres_relation_data (pre ++ rest) =
      fetch_postgres_relation_data rest := by
  induction pre with
  | nil => rfl
  | cons b pre ih =>
    have hb : b = [] := h b (by simp)
    subst hb
    rw [List.cons_append, fetch_postgres_relation_data, if_pos rfl]
    exact ih (fun b₂ hb₂ => h b₂ (by simp [hb₂]))

/-- Every successful relation-data fetch tags the statically configured
database name. -/
theorem fetch_db_database (snap : RelationSnapshot) (d : DbData)
    (h : fetch_postgres_relation_data snap = .ok d) :
    d.db_database = "names_db" := by
  induction snap with
  | nil => simp [fetch_postgres_relation_data] at h
  | cons bag rest ih =>
    rw [fetch_postgres_relation_data] at h
    split at h
    · exact ih h
    · split at h
      · simp at h
      · split at h
        · split at h
          · simp at h
          · split at h
            · simp at h
            · simp only [Except.ok.injEq] at h
              rw [← h]
        · simp at h

/-- A successfully built layer presupposes a successful relation-data
fetch. -/
theorem pebble_layer_ok_fetch (snap : RelationSnapshot) (l : LayerDict)
    (h : pebble_layer snap = .ok l) :
    ∃ d, fetch_postgres_relation_data snap = .ok d := by
  rcases hf : fetch_postgres_relation_data snap with e | d
  · rw [pebble_layer, app_environment] at h
    simp only [bind, Except.bind, hf] at h
    simp at h
  · exact ⟨d, rfl⟩

/-- A fetch failure propagates through layer building unchanged. -/
theorem pebble_layer_error (snap : RelationSnapshot) (e : FetchError)
    (h : fetch_postgres_relation_data snap = .error e) :
    pebble_layer snap = .error e := by
  rw [pebble_layer, app_environment]
  simp only [bind, Except.bind, h]

/-- Full characterisation of a reconcile run against a reachable
container when the layer builds: the run succeeds, installing and
restarting exactly when the services sub-mappings differ, and always
refreshing the workload version and ending active. -/
theorem update_ok_of_connect (snap : RelationSnapshot) (s : CharmState)
    (layer : LayerDict) (hc : s.canConnect = true)
    (hl : pebble_layer snap = .ok layer) :
    update_layer_and_restart snap s =
      .ok (if s.planServices = layer.services
        then { s with status := Status.active,
                      workloadVersion :=
                        charm_version s.canConnect s.planServices }
        else { s with planServices := layer.services,
                      installCount := s.installCount + 1,
                      restartCount := s.restartCount + 1,
                      workloadVersion :=
                        charm_version s.canConnect layer.services,
                      status := Status.active }) := by
  unfold update_layer_and_restart
  by_cases heq : s.planServices = layer.services <;>
    simp [hc, hl, heq]

/-- A reconcile run whose desired services already equal the plan
performs no install and no restart. -/
theorem update_equal_plan_counts (snap : RelationSnapshot)
    (s r : CharmState) (layer : LayerDict)
    (h : update_layer_and_restart snap s = .ok r)
    (hc : s.canConnect = true) (hl : pebble_layer snap = .ok layer)
    (heq : s.planServices = layer.services) :
    r.installCount = s.installCount ∧ r.restartCount = s.restartCount := by
  rw [update_ok_of_connect snap s layer hc hl, if_pos heq] at h
  simp only [Except.ok.injEq] at h
  subst h
  exact ⟨rfl, rfl⟩

/-- Running reconcile twice in a row with the same relation snapshot
never performs a second install or restart, whatever the starting
state. -/
theorem update_twice_counts (snap : RelationSnapshot) (s r₁ r₂ : CharmState)
    (h₁ : update_layer_and_restart snap s = .ok r₁)
    (h₂ : update_layer_and_restart snap r₁ = .ok r₂) :
    r₂.installCount = r₁.installCount ∧
    r₂.restartCount = r₁.restartCount := by
  by_cases hc : s.canConnect = true
  · rcases hp : pebble_layer snap with e | layer
    · cases e with
      | databaseNotReady =>
        unfold update_layer_and_restart at h₁
        simp [hc, hp] at h₁
        subst h₁
        unfold update_layer_and_restart at h₂
        simp [hc, hp] at h₂
        subst h₂
        exact ⟨rfl, rfl⟩
      | keyError k =>
        unfold update_layer_and_restart at h₁
        simp [hc, hp] at h₁
      | unpackError n =>
        unfold update_layer_and_restart at h₁
        simp [hc, hp] at h₁
    · rw [update_ok_of_connect snap s layer hc hp] at h₁
      by_cases heq : s.planServices = layer.services
      · rw [if_pos heq] at h₁
        simp only [Except.ok.injEq] at h₁
        subst h₁
        exact update_equal_plan_counts snap _ r₂ layer h₂ hc hp heq
      · rw [if_neg heq] at h₁
        simp only [Except.ok.injEq] at h₁
        subst h₁
        exact update_equal_plan_counts snap _ r₂ layer h₂ hc hp rfl
  · unfold update_layer_and_restart at h₁
    simp [hc] at h₁
    subst h₁
    unfold update_layer_and_restart at h₂
    simp [hc] at h₂
    subst h₂
    exact ⟨rfl, rfl⟩

/-! ## Claim theorems -/

/-- Claim C1: for every connection-parameter record obtained from the
relation data, the environment mapping of the built descriptor contains
exactly the six fixed keys carrying store-type, JDBC URL, host, port,
username and password, where the JDBC URL is the concatenation of the
postgres JDBC scheme, the host, a colon, the port, and the static
database-name suffix, and the host, port, username and password keys map
to the fetched values verbatim. -/
theorem c1_environment_contract (snap : RelationSnapshot) (d : DbData)
    (hd : fetch_postgres_relation_data snap = .ok d) :
    app_environment snap = .ok [
      ("NESSIE_VERSION_STORE_TYPE", "JDBC"),
      ("QUARKUS_DATASOURCE_JDBC_URL",
        "jdbc:postgresql://" ++ d.db_host ++ ":" ++ d.db_port ++ "/names_db"),
      ("DEMO_SERVER_DB_HOST", d.db_host),
      ("DEMO_SERVER_DB_PORT", d.db_port),
      ("QUARKUS_DATASOURCE_USERNAME", d.db_username),
      ("QUARKUS_DATASOURCE_PASSWORD", d.db_password)] := by
  have hdb := fetch_db_database snap d hd
  rw [app_environment]
  simp only [bind, Except.bind, hd, hdb, pure, Except.pure]
  rw [String.append_assoc]
  rfl

/-- Witness for C1 on the scenario bag from the specification. -/
theorem c1_environment_contract_witness :
    app_environment demoSnap = .ok demoEnv := by
  have h := c1_environment_contract demoSnap
    { db_host := "10.0.0.5", db_port := "5432", db_username := "u",
      db_password := "p", db_database := "names_db" } (by decide)
  exact h.trans (by decide)

/-- Claim C2: the parameter derivation scans the bags in iteration
order, skips empty bags, and for the first non-empty bag whose endpoints
value splits on the colon into exactly two fields h and p (equivalently,
the value contains exactly one colon and is h, then a colon, then p),
returns host h, port p, the username and password of that bag, and the
static database name. -/
theorem c2_first_nonempty_bag (pre post : RelationSnapshot) (bag : Bag)
    (e h p u w : String)
    (hpre : ∀ b ∈ pre, b = []) (hbag : bag ≠ [])
    (he : assocLookup "endpoints" bag = some e)
    (hsplit : pySplit ':' e = [h, p])
    (hu : assocLookup "username" bag = some u)
    (hw : assocLookup "password" bag = some w) :
    e.data = h.data ++ ':' :: p.data ∧
    e.data.count ':' = 1 ∧
    fetch_postgres_relation_data (pre ++ bag :: post) =
      .ok { db_host := h, db_port := p, db_username := u,
            db_password := w, db_database := "names_db" } := by
  refine ⟨pySplit_eq_pair ':' e h p hsplit, ?_, ?_⟩
  · have hl := pySplit_length ':' e
    rw [hsplit] at hl
    simp only [List.length_cons, List.length_nil] at hl
    omega
  · rw [fetch_skip_empty pre (bag :: post) hpre]
    simp [fetch_postgres_relation_data, hbag, he, hsplit, hu, hw]

/-- Witness for C2 on the scenario bag, preceded by one empty bag. -/
theorem c2_first_nonempty_bag_witness :
    ("10.0.0.5:5432").data = ("10.0.0.5").data ++ ':' :: ("5432").data ∧
    ("10.0.0.5:5432").data.count ':' = 1 ∧
    fetch_postgres_relation_data ([[]] ++ demoBag :: []) =
      .ok { db_host := "10.0.0.5", db_port := "5432", db_username := "u",
            db_password := "p", db_database := "names_db" } :=
  c2_first_nonempty_bag [[]] [] demoBag "10.0.0.5:5432" "10.0.0.5" "5432"
    "u" "p" (by decide) (by decide) (by decide) (by decide) (by decide)
    (by decide)

/-- Claim C4: when every bag of the snapshot is empty (including the
empty snapshot), the parameter derivation signals DatabaseNotReady
rather than returning parameters, and descriptor construction fails with
that same signal, so no descriptor is built. -/
theorem c4_all_empty_not_ready (snap : RelationSnapshot)
    (h : ∀ bag ∈ snap, bag = []) :
    fetch_postgres_relation_data snap = .error .databaseNotReady ∧
    pebble_layer snap = .error .databaseNotReady := by
  have hf : fetch_postgres_relation_data snap = .error .databaseNotReady := by
    have h₂ := fetch_skip_empty snap [] h
    rw [List.append_nil] at h₂
    rw [h₂]
    rfl
  exact ⟨hf, pebble_layer_error snap _ hf⟩

/-- Witness for C4 on a snapshot of two empty bags. -/
theorem c4_all_empty_not_ready_witness :
    fetch_postgres_relation_data [[], []] = .error .databaseNotReady ∧
    pebble_layer [[], []] = .error .databaseNotReady :=
  c4_all_empty_not_ready [[], []] (by decide)

/-- Claim C8: when the supervisor is unreachable, reconcile reports the
waiting outcome and leaves everything else untouched: in particular no
layer is installed and no restart is requested. -/
theorem c8_supervisor_unreachable_waiting (snap : RelationSnapshot)
    (s : CharmState) (hc : s.canConnect = false) :
    update_layer_and_restart snap s =
      .ok { s with
        status := Status.waiting "Waiting for Pebble in workload container" } := by
  unfold update_layer_and_restart
  simp [hc]

/-- Witness for C8 on an unreachable container. -/
theorem c8_supervisor_unreachable_waiting_witness :
    update_layer_and_restart demoSnap offState =
      .ok { offState with
        status := Status.waiting "Waiting for Pebble in workload container" } :=
  c8_supervisor_unreachable_waiting demoSnap offState (by decide)

/-- Claim C9: the database-relation-broken handler reports the waiting
outcome and changes nothing else: the plan, the counters, the ports and
the version of the state are all untouched. -/
theorem c9_relation_broken_frame (s : CharmState) :
    on_database_relation_removed s =
      { s with status := Status.waiting "Waiting for database relation" } :=
  rfl

/-- Claim C10: when the first non-empty bag carries an endpoints value
whose colon count is not one, the derivation raises the unpacking error
carrying the number of split fields, which is never two, rather than
returning NotReady or applying a first-colon or last-colon policy. -/
theorem c10_bad_endpoints_unpack (pre post : RelationSnapshot) (bag : Bag)
    (e : String)
    (hpre : ∀ b ∈ pre, b = []) (hbag : bag ≠ [])
    (he : assocLookup "endpoints" bag = some e)
    (hcount : e.data.count ':' ≠ 1) :
    fetch_postgres_relation_data (pre ++ bag :: post) =
      .error (.unpackError (e.data.count ':' + 1)) ∧
    e.data.count ':' + 1 ≠ 2 := by
  have hlen := pySplit_length ':' e
  constructor
  · rw [fetch_skip_empty pre (bag :: post) hpre]
    rcases hs : pySplit ':' e with _ | ⟨a, _ | ⟨b, t⟩⟩
    · rw [hs] at hlen
      simp at hlen
    · rw [hs] at hlen
      simp only [List.length_cons, List.length_nil] at hlen
      simp [fetch_postgres_relation_data, hbag, he, hs]
      omega
    · rcases t with _ | ⟨c₂, t⟩
      · rw [hs] at hlen
        simp only [List.length_cons, List.length_nil] at hlen
        exfalso
        omega
      · rw [hs] at hlen
        simp only [List.length_cons] at hlen
        simp [fetch_postgres_relation_data, hbag, he, hs]
        omega
  · omega

/-- Witness for C10 on an endpoints value with no colon. -/
theorem c10_bad_endpoints_unpack_witness :
    fetch_postgres_relation_data ([[]] ++ noColonBag :: []) =
      .error (.unpackError (("localhost").data.count ':' + 1)) ∧
    ("localhost").data.count ':' + 1 ≠ 2 :=
  c10_bad_endpoints_unpack [[]] [] noColonBag "localhost"
    (by decide) (by decide) (by decide) (by decide)

/-- Claim C3: the reconcile comparison is structural equality of the
services sub-mapping only: when the plan services equal the services of
the built layer, nothing is installed or restarted (the state keeps its
counters and plan, only refreshing version and status); when they
differ, the new services are installed, the restart counter advances,
and the reported workload version is updated; and a second run with the
same snapshot never performs a second install or restart. -/
theorem c3_reconcile_services_only (snap : RelationSnapshot)
    (s r₁ r₂ : CharmState) (layer : LayerDict)
    (hc : s.canConnect = true)
    (hl : pebble_layer snap = .ok layer) :
    (s.planServices = layer.services →
      update_layer_and_restart snap s =
        .ok { s with status := Status.active,
                     workloadVersion :=
                       charm_version s.canConnect s.planServices }) ∧
    (s.planServices ≠ layer.services →
      update_layer_and_restart snap s =
        .ok { s with planServices := layer.services,
                     installCount := s.installCount + 1,
                     restartCount := s.restartCount + 1,
                     workloadVersion :=
                       charm_version s.canConnect layer.services,
                     status := Status.active }) ∧
    (update_layer_and_restart snap s = .ok r₁ →
      update_layer_and_restart snap r₁ = .ok r₂ →
      r₂.installCount = r₁.installCount ∧
      r₂.restartCount = r₁.restartCount) := by
  refine ⟨?_, ?_, update_twice_counts snap s r₁ r₂⟩
  · intro heq
    rw [update_ok_of_connect snap s layer hc hl, if_pos heq]
  · intro hne
    rw [update_ok_of_connect snap s layer hc hl, if_neg hne]

/-- Witness for C3: reconciling the scenario snapshot from an empty plan
installs and restarts once; reconciling again is a no-op. -/
theorem c3_reconcile_services_only_witness :
    update_layer_and_restart demoSnap demoState = .ok demoState1 ∧
    update_layer_and_restart demoSnap demoState1 = .ok demoState1 ∧
    demoState1.installCount = demoState.installCount + 1 ∧
    demoState1.restartCount = demoState.restartCount + 1 := by
  have h := c3_reconcile_services_only demoSnap demoState demoState1
    demoState1 demoLayer (by decide) (by decide)
  have h₂ := c3_reconcile_services_only demoSnap demoState1 demoState1
    demoState1 demoLayer (by decide) (by decide)
  exact ⟨(h.2.1 (by decide)).trans (by decide),
    (h₂.1 (by decide)).trans (by decide), by decide, by decide⟩

/-- Counterexample to C5 as stated: a bag whose endpoints value is a
bare colon yields connection parameters whose host, port, username and
password are all empty strings, and reconciling from an empty plan still
installs and restarts. -/
theorem c5_counterexample_empty_fields :
    fetch_postgres_relation_data badSnap =
      .ok { db_host := "", db_port := "", db_username := "",
            db_password := "", db_database := "names_db" } ∧
    okInstallCount (update_layer_and_restart badSnap demoState) = some 1 ∧
    okRestartCount (update_layer_and_restart badSnap demoState) = some 1 := by
  decide

/-- Claim C5 as amended: a descriptor is installed only when the
parameter derivation succeeds; the derivation always tags the non-empty
static database name, but the remaining four fields are passed through
verbatim and may be empty. -/
theorem c5_install_requires_fetch_success (snap : RelationSnapshot)
    (s r : CharmState)
    (h : update_layer_and_restart snap s = .ok r)
    (hinst : s.installCount < r.installCount) :
    fetchedDbName snap = some "names_db" := by
  by_cases hc : s.canConnect = true
  · rcases hp : pebble_layer snap with e | layer
    · cases e with
      | databaseNotReady =>
        unfold update_layer_and_restart at h
        simp [hc, hp] at h
        rw [← h] at hinst
        simp at hinst
      | keyError k =>
        unfold update_layer_and_restart at h
        simp [hc, hp] at h
      | unpackError n =>
        unfold update_layer_and_restart at h
        simp [hc, hp] at h
    · obtain ⟨d, hd⟩ := pebble_layer_ok_fetch snap layer hp
      simp [fetchedDbName, hd, fetch_db_database snap d hd]
  · unfold update_layer_and_restart at h
    simp [hc] at h
    rw [← h] at hinst
    simp at hinst

/-- Witness for the amended C5 on the scenario snapshot. -/
theorem c5_install_requires_fetch_success_witness :
    fetchedDbName demoSnap = some "names_db" :=
  c5_install_requires_fetch_success demoSnap demoState demoState1
    (by decide) (by decide)

/-- Counterexample to C6 as stated: with the log level set to a value
outside the enumerated set, the configuration-changed handler does not
report the blocked outcome; it leaves the status untouched. -/
theorem c6_counterexample_no_blocked_on_trace :
    "trace" ∉ VALID_LOG_LEVELS ∧
    okStatus (on_config_changed traceCfg demoState) =
      some (Status.waiting "Waiting for database relation") ∧
    isBlocked (okStatus (on_config_changed traceCfg demoState)) = false ∧
    okInstallCount (on_config_changed traceCfg demoState) = some 0 := by
  decide

/-- Claim C6 as amended: the configuration-changed handler never reads
the log-level value and never validates it against the enumerated set:
on success it only replaces the opened ports, leaving the status (in
particular never blocked), the plan and both counters unchanged, and it
installs no descriptor. -/
theorem c6_config_changed_ignores_log_level (cfg : Config)
    (s r : CharmState)
    (h : on_config_changed cfg s = .ok r) :
    r.status = s.status ∧ r.installCount = s.installCount ∧
    r.restartCount = s.restartCount ∧ r.planServices = s.planServices := by
  obtain ⟨wp, ll⟩ := cfg
  unfold on_config_changed handle_ports at h
  cases wp with
  | none => simp at h
  | some v =>
    simp only at h
    cases hv : pyInt? v with
    | none => simp [hv] at h
    | some p =>
      simp only [hv, Except.ok.injEq] at h
      subst h
      exact ⟨rfl, rfl, rfl, rfl⟩

/-- Witness for the amended C6 on a trace log level and port 8080. -/
theorem c6_config_changed_ignores_log_level_witness :
    demoStatePorts.status = demoState.status ∧
    demoStatePorts.installCount = demoState.installCount ∧
    demoStatePorts.restartCount = demoState.restartCount ∧
    demoStatePorts.planServices = demoState.planServices :=
  c6_config_changed_ignores_log_level traceCfg demoState demoStatePorts
    (by decide)

/-- Claim C7, recording the code bug: with an empty relation snapshot
the workload-ready handler lets the DatabaseNotReady exception escape
the component boundary instead of communicating failure through the
status outcome alone. -/
theorem c7_pebble_ready_exception_escapes :
    on_nessie_pebble_ready [] demoState =
      .error FetchError.databaseNotReady :=
  rfl

end Nessie
